import Mathlib

/-!
Verification of the Snuffles Slack bot (main.py, daily_briefing.py).

The development shallowly embeds the Python source. Machine-level details
are modelled as follows: Unix times and datetime instants are `Int`
seconds; floating temperatures are `ℚ`; Python strings are Lean `String`
with hand-rolled structural primitives (lowercasing, strip, substring
test, split) so that every definition evaluates inside the kernel;
external collaborators (HMAC-SHA256, pytz zone arithmetic and validity,
strftime renderings, the network) enter as explicit function parameters
or as already-fetched input data. Fallible Python code that returns
`None` on a caught exception is embedded with `Option`.
-/

/-- ASCII lowercasing of one character, as Python str.lower acts on the
ASCII range (other code points are left unchanged; every keyword the bot
matches on is ASCII). -/
def lowerChar (c : Char) : Char :=
  if 65 ≤ c.toNat ∧ c.toNat ≤ 90 then Char.ofNat (c.toNat + 32) else c

/-- Python text.lower(), restricted to the ASCII range. -/
def pyLower (s : String) : String :=
  ⟨s.data.map lowerChar⟩

/-- ASCII whitespace recognised by Python str.strip (space, tab, newline,
carriage return, vertical tab, form feed). -/
def isSpaceChar (c : Char) : Bool :=
  c == ' ' || c == '\t' || c == '\n' || c == '\r' || c == '\x0b' || c == '\x0c'

/-- Strip leading and trailing whitespace from a character list. -/
def trimChars (cs : List Char) : List Char :=
  ((cs.dropWhile isSpaceChar).reverse.dropWhile isSpaceChar).reverse

/-- Python s.strip() (ASCII whitespace). -/
def pyStrip (s : String) : String :=
  ⟨trimChars s.data⟩

/-- Does the first character list start with the second one? -/
def startsWithChars : List Char → List Char → Bool
  | _, [] => true
  | [], _ :: _ => false
  | a :: as, b :: bs => a == b && startsWithChars as bs

/-- Does the needle occur as a contiguous sublist of the haystack? -/
def containsChars : List Char → List Char → Bool
  | [], needle => startsWithChars [] needle
  | a :: t, needle => startsWithChars (a :: t) needle || containsChars t needle

/-- Python sub in s: substring test. -/
def pyIn (sub s : String) : Bool :=
  containsChars s.data sub.data

/-- The last element of Python s.split(sep): the suffix after the last
occurrence of sep, or s itself when sep does not occur. The only separator
the source passes, "timezone", cannot overlap itself, so taking the last
match position agrees with the left-to-right non-overlapping splitting
that Python performs. -/
def suffixAfterLast : List Char → List Char → List Char
  | [], _ => []
  | a :: t, needle =>
    if containsChars t needle then suffixAfterLast t needle
    else if startsWithChars (a :: t) needle then (a :: t).drop needle.length
    else a :: t

/-- main.py line 150: text.split("timezone")[-1].strip(). -/
def extract_tz (text : String) : String :=
  pyStrip ⟨suffixAfterLast text.data "timezone".data⟩

/-- Numeric value of an ASCII decimal digit. -/
def digitVal (c : Char) : Option Nat :=
  if 48 ≤ c.toNat ∧ c.toNat ≤ 57 then some (c.toNat - 48) else none

/-- Accumulate the value of a digit string, most significant digit first. -/
def decimalValAux : List Char → Nat → Option Nat
  | [], acc => some acc
  | c :: rest, acc =>
    match digitVal c with
    | some d => decimalValAux rest (acc * 10 + d)
    | none => none

/-- Value of a non-empty all-digit character list. -/
def decimalVal (cs : List Char) : Option Nat :=
  if cs.isEmpty then none else decimalValAux cs 0

/-- Python int(s) on a plain decimal string: surrounding whitespace is
stripped, an optional single sign is allowed, the rest must be decimal
digits; none models the ValueError path. (Underscore digit grouping and
non-ASCII digits are not modelled; Slack timestamps are plain decimals.) -/
def pyInt (s : String) : Option Int :=
  match trimChars s.data with
  | '-' :: rest => (decimalVal rest).map (fun n => -(n : Int))
  | '+' :: rest => (decimalVal rest).map (fun n => (n : Int))
  | cs => (decimalVal cs).map (fun n => (n : Int))

/-- The parts of the inbound Flask request that verify_slack_request reads:
the two Slack headers (absent headers are none) and the raw body. -/
structure SlackRequest where
  timestampHeader : Option String
  signatureHeader : Option String
  body : String

/-- Python truthiness test `not header` on request.headers.get: an absent
header is None (falsy) and an empty string is falsy too. -/
def headerFalsy : Option String → Bool
  | none => true
  | some s => s == ""

/-- main.py lines 66 to 95, verify_slack_request. The HMAC-SHA256 hex
digest is an external primitive and is passed in as hmacSha256Hex; now is
time.time() in whole seconds; hmac.compare_digest is a constant-time
string equality, embedded as equality. -/
def verify_slack_request (hmacSha256Hex : String → String → String)
    (secret : String) (now : Int) (req : SlackRequest) : Bool :=
  let timestamp := req.timestampHeader.getD ""
  let slack_signature := req.signatureHeader.getD ""
  if headerFalsy req.timestampHeader || headerFalsy req.signatureHeader then
    false
  else
    match pyInt timestamp with
    | none => false
    | some t =>
      if 300 < (now - t).natAbs then false
      else if secret == "" then false
      else
        let sig_basestring := "v0:" ++ timestamp ++ ":" ++ req.body
        let my_signature := "v0=" ++ hmacSha256Hex secret sig_basestring
        my_signature == slack_signature

theorem length_append_ne_empty (a b : String) (h : 0 < a.length) : a ++ b ≠ "" := by
  intro heq
  have hl : (a ++ b).length = 0 := by rw [heq]; rfl
  rw [String.length_append] at hl
  omega

theorem string_append_left_cancel {a b c : String} (h : a ++ b = a ++ c) : b = c := by
  have hd : a.data ++ b.data = a.data ++ c.data := by
    rw [← String.data_append, ← String.data_append, h]
  have hbc := List.append_cancel_left hd
  cases b
  cases c
  exact congrArg String.mk (by simpa using hbc)

/-- C1. Signature verification is a total boolean function of the two
headers, the raw body, the configured secret and the current time; it
returns true exactly when both headers are present, the secret is
non-empty, the timestamp parses to an integer within 300 seconds of the
current time, and the supplied signature equals "v0=" plus the hex
HMAC-SHA256 of "v0:" ++ timestamp ++ ":" ++ body under the secret.
Consequently a timestamp more than 300 seconds from the current time is
rejected regardless of the signature, and a tampered body whose
recomputed digest differs is rejected. -/
theorem verify_slack_request_spec :
    (∀ (h : String → String → String) (secret : String) (now : Int)
        (ts sig : Option String) (body : String),
      verify_slack_request h secret now ⟨ts, sig, body⟩ = true ↔
        ∃ tsv sigv, ts = some tsv ∧ sig = some sigv ∧ secret ≠ "" ∧
          (∃ n, pyInt tsv = some n ∧ (now - n).natAbs ≤ 300) ∧
          sigv = "v0=" ++ h secret ("v0:" ++ tsv ++ ":" ++ body)) ∧
    (∀ (h : String → String → String) (secret : String) (now : Int)
        (tsv : String) (n : Int) (sig : Option String) (body : String),
      pyInt tsv = some n → 300 < (now - n).natAbs →
      verify_slack_request h secret now ⟨some tsv, sig, body⟩ = false) ∧
    (∀ (h : String → String → String) (secret : String) (now : Int)
        (tsv sigv : String) (body tampered : String),
      verify_slack_request h secret now ⟨some tsv, some sigv, body⟩ = true →
      h secret ("v0:" ++ tsv ++ ":" ++ tampered) ≠
        h secret ("v0:" ++ tsv ++ ":" ++ body) →
      verify_slack_request h secret now ⟨some tsv, some sigv, tampered⟩ = false) := by
  have key : ∀ (h : String → String → String) (secret : String) (now : Int)
      (ts sig : Option String) (body : String),
      verify_slack_request h secret now ⟨ts, sig, body⟩ = true ↔
        ∃ tsv sigv, ts = some tsv ∧ sig = some sigv ∧ secret ≠ "" ∧
          (∃ n, pyInt tsv = some n ∧ (now - n).natAbs ≤ 300) ∧
          sigv = "v0=" ++ h secret ("v0:" ++ tsv ++ ":" ++ body) := by
    intro h secret now ts sig body
    constructor
    · intro hv
      unfold verify_slack_request at hv
      simp only at hv
      rcases ts with _ | tsv
      · simp [headerFalsy] at hv
      rcases sig with _ | sigv
      · simp [headerFalsy] at hv
      by_cases hte : tsv = ""
      · simp [headerFalsy, hte] at hv
      by_cases hse : sigv = ""
      · simp [headerFalsy, hse] at hv
      simp only [headerFalsy, Option.getD_some] at hv
      rw [if_neg (by simp [hte, hse])] at hv
      rcases hp : pyInt tsv with _ | n
      · rw [hp] at hv; exact absurd hv (by simp)
      rw [hp] at hv
      dsimp only at hv
      by_cases habs : 300 < (now - n).natAbs
      · rw [if_pos habs] at hv; exact absurd hv (by simp)
      rw [if_neg habs] at hv
      by_cases hsec : secret = ""
      · rw [if_pos (by simp [hsec])] at hv; exact absurd hv (by simp)
      rw [if_neg (by simp [hsec])] at hv
      refine ⟨tsv, sigv, rfl, rfl, hsec, ⟨n, hp, by omega⟩, ?_⟩
      exact (beq_iff_eq.mp hv).symm
    · rintro ⟨tsv, sigv, rfl, rfl, hsec, ⟨n, hp, habs⟩, rfl⟩
      unfold verify_slack_request
      have hte : tsv ≠ "" := by
        intro hcon; rw [hcon] at hp; simp [pyInt, trimChars, decimalVal] at hp
      have hse : "v0=" ++ h secret ("v0:" ++ tsv ++ ":" ++ body) ≠ "" :=
        length_append_ne_empty _ _ (by decide)
      simp only [headerFalsy, Option.getD_some]
      rw [if_neg (by simp [hte, hse]), hp]
      dsimp only
      rw [if_neg (by omega), if_neg (by simp [hsec])]
      exact beq_iff_eq.mpr rfl
  refine ⟨key, ?_, ?_⟩
  · intro h secret now tsv n sig body hp habs
    rw [← Bool.not_eq_true, key]
    rintro ⟨tsv2, sigv2, heq, -, -, ⟨n2, hp2, habs2⟩, -⟩
    obtain rfl : tsv = tsv2 := by injection heq
    rw [hp] at hp2
    obtain rfl : n = n2 := by injection hp2
    omega
  · intro h secret now tsv sigv body tampered hv hne
    obtain ⟨tsv2, sigv2, heq1, heq2, hsec, hwin, hsig⟩ := (key _ _ _ _ _ _).mp hv
    obtain rfl : tsv = tsv2 := by injection heq1
    obtain rfl : sigv = sigv2 := by injection heq2
    rw [← Bool.not_eq_true, key]
    rintro ⟨tsv3, sigv3, heq3, heq4, -, -, hsig2⟩
    obtain rfl : tsv = tsv3 := by injection heq3
    obtain rfl : sigv = sigv3 := by injection heq4
    apply hne
    exact string_append_left_cancel (hsig2.symm.trans hsig)

/-- Witness for C1: a stale timestamp is rejected, and a valid request
whose body is tampered with is rejected. -/
theorem verify_slack_request_spec_witness :
    verify_slack_request (fun _ m => m) "k" 0 ⟨some "1000", some "v0=v0:1000:a", "a"⟩ = false ∧
    verify_slack_request (fun _ m => m) "k" 0 ⟨some "0", some "v0=v0:0:a", "b"⟩ = false :=
  ⟨verify_slack_request_spec.2.1 (fun _ m => m) "k" 0 "1000" 1000 (some "v0=v0:1000:a") "a"
      (by decide) (by decide),
   verify_slack_request_spec.2.2 (fun _ m => m) "k" 0 "0" "v0=v0:0:a" "a" "b"
      (by decide) (by decide)⟩

/-- daily_briefing.py: the fields of the weather dictionary built by
get_weather_evanston that get_clothing_recommendation reads. -/
structure WeatherSnapshot where
  current_temp : Option ℚ
  max_temp : ℚ
  min_temp : ℚ
  precip_prob : ℤ
  weather_code : ℤ

/-- daily_briefing.py line 71: the WMO drizzle/rain, shower and
thunderstorm code ranges. -/
def is_raining (code : ℤ) : Prop :=
  (51 ≤ code ∧ code ≤ 67) ∨ (80 ≤ code ∧ code ≤ 82) ∨ (95 ≤ code ∧ code ≤ 99)

/-- daily_briefing.py line 72: the WMO snow code range. -/
def is_snowing (code : ℤ) : Prop :=
  71 ≤ code ∧ code ≤ 77

instance (code : ℤ) : Decidable (is_raining code) := by
  unfold is_raining; infer_instance

instance (code : ℤ) : Decidable (is_snowing code) := by
  unfold is_snowing; infer_instance

/-- Python " ".join(parts). -/
def joinWithSpace : List String → String
  | [] => ""
  | [s] => s
  | s :: rest => s ++ " " ++ joinWithSpace rest

/-- daily_briefing.py lines 44 to 79, get_clothing_recommendation. The
argument is none when the weather fetch failed (weather_data is None,
which is falsy). -/
def get_clothing_recommendation : Option WeatherSnapshot → String
  | none => "Could not fetch weather data, so wear whatever you feel like!"
  | some weather_data =>
    let temp := weather_data.max_temp
    let precip := weather_data.precip_prob
    let code := weather_data.weather_code
    let tempPart : String :=
      if temp < 0 then
        "It\x27s freezing! Wear a heavy winter coat, scarf, gloves, and a hat."
      else if temp < 10 then
        "It\x27s cold. Wear a warm coat and maybe a scarf."
      else if temp < 20 then
        "It\x27s chilly. A jacket or a sweater should be good."
      else if temp < 25 then
        "It\x27s pleasant. A light jacket or long sleeves."
      else
        "It\x27s warm! T-shirt and shorts weather."
    let recommendation : List String := [tempPart]
    let recommendation : List String :=
      if is_raining code ∨ precip > 40 then
        recommendation ++ ["Don\x27t forget an umbrella ☂️, it might rain."]
      else if is_snowing code then
        recommendation ++ ["It might snow ❄️, wear waterproof shoes."]
      else recommendation
    joinWithSpace recommendation

/-- Modelled from the claim wording for comparison with the code: one
temperature sentence picked by max_temp against the thresholds 0, 10, 20,
25; an umbrella clause appended when the code is in 51 to 67, 80 to 82 or
95 to 99 or the precipitation probability exceeds 40; otherwise (else-if)
a snow clause when the code is in 71 to 77. -/
def clothingRecommendationSpec (max_temp : ℚ) (precip : ℤ) (code : ℤ) : String :=
  let base : String :=
    if max_temp < 0 then
      "It\x27s freezing! Wear a heavy winter coat, scarf, gloves, and a hat."
    else if max_temp < 10 then
      "It\x27s cold. Wear a warm coat and maybe a scarf."
    else if max_temp < 20 then
      "It\x27s chilly. A jacket or a sweater should be good."
    else if max_temp < 25 then
      "It\x27s pleasant. A light jacket or long sleeves."
    else
      "It\x27s warm! T-shirt and shorts weather."
  if (51 ≤ code ∧ code ≤ 67) ∨ (80 ≤ code ∧ code ≤ 82) ∨ (95 ≤ code ∧ code ≤ 99) ∨ 40 < precip then
    base ++ " " ++ "Don\x27t forget an umbrella ☂️, it might rain."
  else if 71 ≤ code ∧ code ≤ 77 then
    base ++ " " ++ "It might snow ❄️, wear waterproof shoes."
  else
    base

set_option maxHeartbeats 1000000 in
/-- C5. The clothing recommendation is a pure function of max_temp,
precipitation probability and weather code, equal to the sentence
selection the specification describes (temperature bands below 0, 10, 20,
25 and at least 25; umbrella clause for codes 51 to 67, 80 to 82, 95 to
99 or precipitation above 40; else-if snow clause for codes 71 to 77, so
rain takes priority), and an unavailable snapshot gives the neutral
fallback sentence. -/
theorem get_clothing_recommendation_spec :
    get_clothing_recommendation none =
      "Could not fetch weather data, so wear whatever you feel like!" ∧
    ∀ w : WeatherSnapshot,
      get_clothing_recommendation (some w) =
        clothingRecommendationSpec w.max_temp w.precip_prob w.weather_code := by
  refine ⟨rfl, ?_⟩
  intro w
  unfold get_clothing_recommendation clothingRecommendationSpec
  simp only [is_raining, is_snowing, gt_iff_lt]
  rcases w with ⟨ct, mt, mint, pp, wc⟩
  dsimp only
  split_ifs <;> first | rfl | tauto

/-- daily_briefing.py: one parsed RSS item (title and link text). -/
structure NewsItem where
  title : String
  link : String
deriving DecidableEq

/-- Outcome of fetching and parsing one feed URL: fetchError covers a
raised exception (network failure or XML parse failure); fetched carries
the HTTP status code and the parsed item list. -/
inductive FeedResult where
  | fetchError : FeedResult
  | fetched : Nat → List NewsItem → FeedResult

/-- daily_briefing.py lines 104 to 110: the inner loop pushing items whose
title has not been seen onto all_news and recording the title. The seen
set is modelled as the list of recorded titles. -/
def addFeedItems : List NewsItem × List String → List NewsItem → List NewsItem × List String
  | st, [] => st
  | (all_news, seen_titles), item :: rest =>
    if item.title ∈ seen_titles then addFeedItems (all_news, seen_titles) rest
    else addFeedItems (all_news ++ [item], seen_titles ++ [item.title]) rest

/-- daily_briefing.py lines 96 to 112: handling of one feed. A raised
exception leaves the state unchanged (the except branch only logs);
a non-200 status hits the continue; otherwise the first 5 items are
processed. -/
def processFeed (st : List NewsItem × List String) (feed : FeedResult) :
    List NewsItem × List String :=
  match feed with
  | .fetchError => st
  | .fetched status items =>
    if status ≠ 200 then st
    else addFeedItems st (items.take 5)

/-- daily_briefing.py lines 81 to 114, get_raw_news_headlines, as a
function of the per-feed fetch outcomes. -/
def get_raw_news_headlines (feeds : List FeedResult) : List NewsItem :=
  (feeds.foldl processFeed ([], [])).1

/-- The first 5 items of a feed that fetched with status 200, else
nothing; written from the claim wording. -/
def feedTopFive : FeedResult → List NewsItem
  | .fetchError => []
  | .fetched status items => if status = 200 then items.take 5 else []

/-- The claim wording: the first 5 items of each successful feed, merged
in feed order. -/
def mergedTopFive (feeds : List FeedResult) : List NewsItem :=
  (feeds.map feedTopFive).flatten

/-- The claim wording: de-duplication by exact title keeping each title at
the position of its first occurrence. -/
def dedupByFirstTitle : List NewsItem → List NewsItem
  | [] => []
  | x :: xs => x :: dedupByFirstTitle (xs.filter (fun y => y.title ≠ x.title))
termination_by l => l.length
decreasing_by
  simp only [List.length_cons]
  exact Nat.lt_succ_of_le (List.length_filter_le _ _)

theorem addFeedItems_append (a b : List NewsItem) :
    ∀ st, addFeedItems st (a ++ b) = addFeedItems (addFeedItems st a) b := by
  induction a with
  | nil => intro st; rfl
  | cons x xs ih =>
    intro st
    rcases st with ⟨acc, seen⟩
    by_cases hx : x.title ∈ seen <;>
      simp only [List.cons_append, addFeedItems, if_pos, if_neg, hx, ite_true, ite_false] <;>
      exact ih _

theorem processFeed_eq (st : List NewsItem × List String) (f : FeedResult) :
    processFeed st f = addFeedItems st (feedTopFive f) := by
  rcases f with _ | ⟨status, items⟩
  · rfl
  · by_cases hs : status = 200 <;> simp [processFeed, feedTopFive, hs, addFeedItems]

theorem foldl_processFeed_eq (feeds : List FeedResult) :
    ∀ st, feeds.foldl processFeed st = addFeedItems st (mergedTopFive feeds) := by
  induction feeds with
  | nil => intro st; rfl
  | cons f fs ih =>
    intro st
    simp only [List.foldl_cons, mergedTopFive, List.map_cons, List.flatten_cons]
    rw [ih, addFeedItems_append, processFeed_eq]
    rfl

theorem addFeedItems_fst (l : List NewsItem) :
    ∀ (acc : List NewsItem) (seen : List String),
      (addFeedItems (acc, seen) l).1 =
        acc ++ dedupByFirstTitle (l.filter (fun y => y.title ∉ seen)) := by
  induction l with
  | nil => intro acc seen; simp [addFeedItems, dedupByFirstTitle]
  | cons x xs ih =>
    intro acc seen
    by_cases hx : x.title ∈ seen
    · simp only [addFeedItems, if_pos hx, List.filter_cons]
      rw [if_neg (by simp [hx])]
      exact ih acc seen
    · simp only [addFeedItems, if_neg hx, List.filter_cons]
      rw [if_pos (by simp [hx])]
      rw [ih (acc ++ [x]) (seen ++ [x.title])]
      rw [dedupByFirstTitle]
      have hfilter :
          (xs.filter (fun y => y.title ∉ seen)).filter (fun y => y.title ≠ x.title) =
            xs.filter (fun y => y.title ∉ seen ++ [x.title]) := by
        rw [List.filter_filter]
        apply List.filter_congr
        intro y _
        by_cases h1 : y.title = x.title <;> by_cases h2 : y.title ∈ seen <;>
          simp [h1, h2]
      rw [hfilter, List.append_assoc]
      rfl

theorem dedupByFirstTitle_subset (l : List NewsItem) :
    ∀ y, y ∈ dedupByFirstTitle l → y ∈ l := by
  induction l using dedupByFirstTitle.induct with
  | case1 => intro y hy; simp [dedupByFirstTitle] at hy
  | case2 x xs ih =>
    intro y hy
    rw [dedupByFirstTitle] at hy
    rcases List.mem_cons.mp hy with rfl | hy2
    · exact List.mem_cons_self _ _
    · exact List.mem_cons_of_mem _ (List.mem_of_mem_filter (ih y hy2))

theorem dedupByFirstTitle_titles_nodup (l : List NewsItem) :
    ((dedupByFirstTitle l).map NewsItem.title).Nodup := by
  induction l using dedupByFirstTitle.induct with
  | case1 => simp [dedupByFirstTitle]
  | case2 x xs ih =>
    rw [dedupByFirstTitle]
    simp only [List.map_cons, List.nodup_cons]
    refine ⟨?_, ih⟩
    intro hmem
    obtain ⟨y, hy, hyt⟩ := List.mem_map.mp hmem
    have hyf := dedupByFirstTitle_subset _ y hy
    have := List.of_mem_filter hyf
    simp [hyt] at this

/-- C8. The news aggregation equals: take the first 5 items of each feed
that fetched with status 200, merge them in feed order, and keep each
title only at its first occurrence, so result titles are pairwise
distinct; a feed that raised or returned a non-200 status is skipped
without affecting the other feeds. -/
theorem get_raw_news_headlines_spec :
    (∀ feeds, get_raw_news_headlines feeds = dedupByFirstTitle (mergedTopFive feeds)) ∧
    (∀ feeds, ((get_raw_news_headlines feeds).map NewsItem.title).Nodup) ∧
    (∀ xs ys, get_raw_news_headlines (xs ++ FeedResult.fetchError :: ys) =
      get_raw_news_headlines (xs ++ ys)) ∧
    (∀ xs ys status items, status ≠ 200 →
      get_raw_news_headlines (xs ++ FeedResult.fetched status items :: ys) =
        get_raw_news_headlines (xs ++ ys)) := by
  have hmain : ∀ feeds,
      get_raw_news_headlines feeds = dedupByFirstTitle (mergedTopFive feeds) := by
    intro feeds
    unfold get_raw_news_headlines
    rw [foldl_processFeed_eq, addFeedItems_fst]
    simp
  refine ⟨hmain, ?_, ?_, ?_⟩
  · intro feeds
    rw [hmain]
    exact dedupByFirstTitle_titles_nodup _
  · intro xs ys
    unfold get_raw_news_headlines
    rw [List.foldl_append, List.foldl_append, List.foldl_cons]
    rfl
  · intro xs ys status items hstatus
    unfold get_raw_news_headlines
    rw [List.foldl_append, List.foldl_append, List.foldl_cons]
    have : processFeed (xs.foldl processFeed ([], [])) (FeedResult.fetched status items) =
        xs.foldl processFeed ([], []) := by
      simp [processFeed, hstatus]
    rw [this]

/-- Witness for C8: a feed with HTTP status 404 is skipped. -/
theorem get_raw_news_headlines_spec_witness :
    get_raw_news_headlines
        ([FeedResult.fetched 200 [⟨"a", "l"⟩]] ++ FeedResult.fetched 404 [⟨"b", "m"⟩] :: []) =
      get_raw_news_headlines ([FeedResult.fetched 200 [⟨"a", "l"⟩]] ++ []) :=
  get_raw_news_headlines_spec.2.2.2 [FeedResult.fetched 200 [⟨"a", "l"⟩]] []
    404 [⟨"b", "m"⟩] (by decide)

/-- The DTSTART value of a parsed VEVENT as icalendar hands it to main.py:
a date (all-day event), a naive datetime, or a timezone-aware datetime.
Datetimes are modelled as seconds; for a naive value the number is the
wall-clock reading, for an aware value the absolute instant. -/
inductive DtStartValue where
  | dateOnly : Int → DtStartValue
  | naiveDt : Int → DtStartValue
  | awareDt : Int → DtStartValue
deriving DecidableEq

/-- One component of the parsed calendar (cal.walk() output): its name,
its DTSTART value and its optional SUMMARY text. -/
structure VComponent where
  name : String
  dtstart : DtStartValue
  summary : Option String
deriving DecidableEq

/-- The event record built by get_calendar_events. -/
structure CalendarEvent where
  start : Int
  summary : String
deriving DecidableEq

/-- main.py lines 46 to 50: tz.localize for a naive datetime (the zone
arithmetic lives in pytz, so it enters as the localize parameter),
astimezone for an aware datetime (which preserves the instant), and no
datetime at all for a date-only value (isinstance(dtstart, datetime) is
False). -/
def normalizeStart (localize : Int → Int) : DtStartValue → Option Int
  | .dateOnly _ => none
  | .naiveDt t => some (localize t)
  | .awareDt t => some t

/-- main.py lines 41 to 57: what one walked component contributes to the
events list: it must be named VEVENT, carry a datetime DTSTART, and fall
inside the window. -/
def componentEvent (localize : Int → Int) (now end_date : Int) (c : VComponent) :
    Option CalendarEvent :=
  if c.name = "VEVENT" then
    match normalizeStart localize c.dtstart with
    | none => none
    | some s =>
      if now ≤ s ∧ s ≤ end_date then some ⟨s, c.summary.getD "No title"⟩ else none
  else none

/-- main.py lines 28 to 64, get_calendar_events, as a function of the
fetched and parsed component list (none when the request or the parse
raised: the except branch returns None). end_date is now plus days in
seconds; events.sort is a stable sort by start, modelled with insertion
sort, which is stable. -/
def get_calendar_events (localize : Int → Int) (now : Int) (days : Int)
    (fetched : Option (List VComponent)) : Option (List CalendarEvent) :=
  match fetched with
  | none => none
  | some components =>
    let end_date := now + days * 86400
    let events := components.filterMap (componentEvent localize now end_date)
    some (events.insertionSort (fun a b => a.start ≤ b.start))

instance : IsTotal CalendarEvent (fun a b => a.start ≤ b.start) :=
  ⟨fun a b => Int.le_total a.start b.start⟩

instance : IsTrans CalendarEvent (fun a b => a.start ≤ b.start) :=
  ⟨fun _ _ _ h1 h2 => le_trans h1 h2⟩

theorem componentEvent_eq_some (localize : Int → Int) (now end_date : Int)
    (c : VComponent) (e : CalendarEvent) :
    componentEvent localize now end_date c = some e ↔
      c.name = "VEVENT" ∧ normalizeStart localize c.dtstart = some e.start ∧
      e.summary = c.summary.getD "No title" ∧ now ≤ e.start ∧ e.start ≤ end_date := by
  rcases e with ⟨es, esum⟩
  unfold componentEvent
  by_cases hn : c.name = "VEVENT"
  · rw [if_pos hn]
    rcases hns : normalizeStart localize c.dtstart with _ | s
    · simp [hn]
    · dsimp only
      by_cases hw : now ≤ s ∧ s ≤ end_date
      · rw [if_pos hw]
        simp only [Option.some.injEq, CalendarEvent.mk.injEq]
        constructor
        · rintro ⟨rfl, rfl⟩
          exact ⟨hn, rfl, rfl, hw.1, hw.2⟩
        · rintro ⟨-, hstart, hsum, -, -⟩
          exact ⟨hstart, hsum.symm⟩
      · rw [if_neg hw]
        constructor
        · intro hcon
          exact absurd hcon (by simp)
        · rintro ⟨-, hstart, -, h1, h2⟩
          injection hstart with hs
          exact absurd ⟨by omega, by omega⟩ hw
  · rw [if_neg hn]
    simp [hn]

/-- C6. For a caller-supplied window of days, a successful fetch returns
exactly the events built from VEVENT components whose normalized start
lies in the closed window from now to now plus days (starts before now
excluded, the upper boundary inclusive), sorted ascending by start, while
a fetch or parse error returns the none sentinel, distinct from a valid
empty list. -/
theorem get_calendar_events_spec :
    (∀ localize now days, get_calendar_events localize now days none = none) ∧
    (∀ localize now days comps, ∃ evs,
      get_calendar_events localize now days (some comps) = some evs ∧
      evs.Sorted (fun a b => a.start ≤ b.start) ∧
      (∀ e, e ∈ evs ↔ ∃ c ∈ comps, c.name = "VEVENT" ∧
        normalizeStart localize c.dtstart = some e.start ∧
        e.summary = c.summary.getD "No title" ∧
        now ≤ e.start ∧ e.start ≤ now + days * 86400)) := by
  refine ⟨fun localize now days => rfl, ?_⟩
  intro localize now days comps
  refine ⟨_, rfl, ?_, ?_⟩
  · exact List.sorted_insertionSort _ _
  · intro e
    have hperm := List.perm_insertionSort (fun a b : CalendarEvent => a.start ≤ b.start)
      (comps.filterMap (componentEvent localize now (now + days * 86400)))
    rw [hperm.mem_iff, List.mem_filterMap]
    simp only [componentEvent_eq_some]

/-- C10. Every event a successful calendar fetch returns comes from a
VEVENT whose DTSTART is a full datetime (naive or aware); a VEVENT whose
DTSTART is a date-only value is excluded even when it lies inside the
requested window, as in the concrete one-component calendar below. -/
theorem get_calendar_events_requires_datetime :
    (∀ localize now days comps evs,
      get_calendar_events localize now days (some comps) = some evs →
      ∀ e ∈ evs, ∃ c ∈ comps, c.name = "VEVENT" ∧
        ((∃ t, c.dtstart = DtStartValue.naiveDt t) ∨
          (∃ t, c.dtstart = DtStartValue.awareDt t)) ∧
        normalizeStart localize c.dtstart = some e.start) ∧
    get_calendar_events (fun t => t) 0 7
        (some [⟨"VEVENT", DtStartValue.dateOnly 3, some "All day"⟩]) = some [] := by
  constructor
  · intro localize now days comps evs hget e he
    injection hget with hget
    rw [← hget] at he
    have hperm := List.perm_insertionSort (fun a b : CalendarEvent => a.start ≤ b.start)
      (comps.filterMap (componentEvent localize now (now + days * 86400)))
    rw [hperm.mem_iff, List.mem_filterMap] at he
    obtain ⟨c, hc, hce⟩ := he
    obtain ⟨hn, hns, -, -, -⟩ := (componentEvent_eq_some _ _ _ _ _).mp hce
    refine ⟨c, hc, hn, ?_, hns⟩
    rcases hd : c.dtstart with t | t | t
    · rw [hd] at hns
      exact absurd hns (by simp [normalizeStart])
    · exact Or.inl ⟨t, rfl⟩
    · exact Or.inr ⟨t, rfl⟩
  · decide

/-- Witness for C10: the event returned for a one-component calendar with
an aware datetime start indeed originates from a datetime DTSTART. -/
theorem get_calendar_events_requires_datetime_witness :
    ∃ c ∈ [(⟨"VEVENT", DtStartValue.awareDt 5, some "Standup"⟩ : VComponent)],
      c.name = "VEVENT" ∧
      ((∃ t, c.dtstart = DtStartValue.naiveDt t) ∨
        (∃ t, c.dtstart = DtStartValue.awareDt t)) ∧
      normalizeStart (fun t => t) c.dtstart =
        some (⟨5, "Standup"⟩ : CalendarEvent).start :=
  get_calendar_events_requires_datetime.1 (fun t => t) 0 7
    [⟨"VEVENT", DtStartValue.awareDt 5, some "Standup"⟩] [⟨5, "Standup"⟩]
    (by decide) ⟨5, "Standup"⟩ (by decide)

/-- The external collaborators the event handler calls, as functions:
validTz is whether pytz.timezone accepts a zone name; fmtNow renders
datetime.now in a zone; calendar is get_calendar_events applied to a days
window; the fmt functions are the three strftime patterns used for
calendar replies; postFails says whether the n-th chat_postMessage call
of the request raises. -/
structure BotEnv where
  validTz : String → Bool
  fmtNow : String → String
  calendar : Int → Option (List CalendarEvent)
  fmtNextEvent : Int → String
  fmtClock : Int → String
  fmtDayClock : Int → String
  postFails : Nat → Bool

/-- The mutable state threaded through one app_mention: the TIMEZONE
global, the texts successfully posted so far, how many chat_postMessage
calls were attempted, and whether an exception escaped to the outer
except block (aborting the rest of the intent block). -/
structure BotState where
  tIMEZONE : String
  posts : List String
  calls : Nat
  aborted : Bool
deriving DecidableEq

/-- One client.chat_postMessage call: if it raises, nothing is posted and
the handler aborts to the outer except; otherwise the text is recorded. -/
def chatPostMessage (env : BotEnv) (s : BotState) (text : String) : BotState :=
  if env.postFails s.calls then
    { s with calls := s.calls + 1, aborted := true }
  else
    { s with posts := s.posts ++ [text], calls := s.calls + 1 }

/-- Run a step only when no exception has escaped yet (Python control
flow never reaches later statements of the try block after a raise). -/
def ifLive (s : BotState) (f : BotState → BotState) : BotState :=
  if s.aborted then s else f s

/-- main.py line 138 guard. -/
def matchesGreeting (text : String) : Bool :=
  pyIn "hi" text || pyIn "hello" text

/-- main.py line 141 guard. -/
def matchesTimeQuery (text : String) : Bool :=
  pyIn "date" text || pyIn "time" text || pyIn "day" text

/-- main.py line 149 guard. -/
def matchesTimezoneCmd (text : String) : Bool :=
  pyIn "timezone" text

/-- The four calendar branches of main.py lines 159 to 207. -/
inductive CalendarIntent where
  | nextEvent : CalendarIntent
  | todayEvents : CalendarIntent
  | weekEvents : CalendarIntent
  | defaultCalendar : CalendarIntent
deriving DecidableEq

/-- The if/elif chain of the calendar branches: at most one fires, the
first whose guard holds. -/
def calendarIntent (text : String) : Option CalendarIntent :=
  if pyIn "next event" text then some .nextEvent
  else if pyIn "today" text && (pyIn "event" text || pyIn "calendar" text) then
    some .todayEvents
  else if pyIn "this week" text && (pyIn "event" text || pyIn "calendar" text) then
    some .weekEvents
  else if pyIn "calendar" text && !(pyIn "next event" text) then some .defaultCalendar
  else none

/-- The msg accumulation loops of the three list-shaped calendar
replies. -/
def renderEventList (header : String) (fmt : Int → String) (evs : List CalendarEvent) :
    String :=
  evs.foldl (fun msg e => msg ++ "‚Ä¢ " ++ fmt e.start ++ " - " ++ e.summary ++ "\n") header

/-- main.py lines 159 to 207: the body of whichever calendar branch
fired. Each branch fetches its window, distinguishes the None sentinel
from an empty list, and makes exactly one chat post. -/
def runCalendarIntent (env : BotEnv) (s : BotState) : CalendarIntent → BotState
  | .nextEvent =>
    match env.calendar 30 with
    | none => chatPostMessage env s "Sorry, I couldn\x27t fetch the calendar."
    | some [] => chatPostMessage env s "No upcoming events found."
    | some (e :: _) =>
      chatPostMessage env s
        ("üìÖ Next event: *" ++ e.summary ++ "*\nüïê " ++ env.fmtNextEvent e.start)
  | .todayEvents =>
    match env.calendar 1 with
    | none => chatPostMessage env s "Sorry, I couldn\x27t fetch the calendar."
    | some [] => chatPostMessage env s "No events today."
    | some evs =>
      chatPostMessage env s (renderEventList "üìÖ *Today\x27s events:*\n" env.fmtClock evs)
  | .weekEvents =>
    match env.calendar 7 with
    | none => chatPostMessage env s "Sorry, I couldn\x27t fetch the calendar."
    | some [] => chatPostMessage env s "No events this week."
    | some evs =>
      chatPostMessage env s
        (renderEventList "üìÖ *This week\x27s events:*\n" env.fmtDayClock evs)
  | .defaultCalendar =>
    match env.calendar 7 with
    | none => chatPostMessage env s "Sorry, I couldn\x27t fetch the calendar."
    | some [] => chatPostMessage env s "No upcoming events in the next 7 days."
    | some evs =>
      chatPostMessage env s
        (renderEventList "üìÖ *Upcoming events (next 7 days):*\n" env.fmtDayClock evs)

/-- main.py lines 137 to 207: the try block of the app_mention handler.
The three independent ifs run in order, then the calendar if/elif chain;
a raising chat post jumps to the except block, skipping everything
after it. -/
def runIntents (env : BotEnv) (s0 : BotState) (text : String) : BotState :=
  let s1 :=
    if matchesGreeting text then
      ifLive s0 (fun s => chatPostMessage env s "Hi there! I am Snuffles.")
    else s0
  let s2 :=
    if matchesTimeQuery text then
      ifLive s1 (fun s =>
        if env.validTz s.tIMEZONE then
          chatPostMessage env s
            ("The current date and time is: " ++ env.fmtNow s.tIMEZONE)
        else
          chatPostMessage env s ("Error: Invalid timezone \x27" ++ s.tIMEZONE ++ "\x27"))
    else s1
  let s3 :=
    if matchesTimezoneCmd text then
      ifLive s2 (fun s =>
        let new_tz := extract_tz text
        if env.validTz new_tz then
          chatPostMessage env { s with tIMEZONE := new_tz }
            ("Timezone updated to: " ++ new_tz)
        else
          chatPostMessage env s
            ("Error: \x27" ++ new_tz ++
              "\x27 is not a valid timezone. Use format like \x27America/New_York\x27, \x27China/Shanghai\x27"))
    else s2
  match calendarIntent text with
  | some ci => ifLive s3 (fun s => runCalendarIntent env s ci)
  | none => s3

/-- The intents of the router, for stating dispatch properties. -/
inductive BotIntent where
  | greeting : BotIntent
  | timeQuery : BotIntent
  | setTimezone : BotIntent
  | calendar : CalendarIntent → BotIntent
deriving DecidableEq

/-- Which intents the router matches for a lowercased text, in execution
order: the three independent guards, then the single winning calendar
branch. -/
def matchedIntents (text : String) : List BotIntent :=
  (if matchesGreeting text then [.greeting] else []) ++
  (if matchesTimeQuery text then [.timeQuery] else []) ++
  (if matchesTimezoneCmd text then [.setTimezone] else []) ++
  (match calendarIntent text with
   | some c => [.calendar c]
   | none => [])

/-- Execution of a single matched intent. -/
def runIntent (env : BotEnv) (text : String) (s : BotState) : BotIntent → BotState
  | .greeting => ifLive s (fun s => chatPostMessage env s "Hi there! I am Snuffles.")
  | .timeQuery =>
    ifLive s (fun s =>
      if env.validTz s.tIMEZONE then
        chatPostMessage env s ("The current date and time is: " ++ env.fmtNow s.tIMEZONE)
      else
        chatPostMessage env s ("Error: Invalid timezone \x27" ++ s.tIMEZONE ++ "\x27"))
  | .setTimezone =>
    ifLive s (fun s =>
      let new_tz := extract_tz text
      if env.validTz new_tz then
        chatPostMessage env { s with tIMEZONE := new_tz }
          ("Timezone updated to: " ++ new_tz)
      else
        chatPostMessage env s
          ("Error: \x27" ++ new_tz ++
            "\x27 is not a valid timezone. Use format like \x27America/New_York\x27, \x27China/Shanghai\x27"))
  | .calendar c => ifLive s (fun s => runCalendarIntent env s c)

/-- Is an intent one of the calendar branches? -/
def isCalendarIntent : BotIntent → Bool
  | .calendar _ => true
  | _ => false

theorem runIntents_eq_foldl (env : BotEnv) (s0 : BotState) (text : String) :
    runIntents env s0 text = (matchedIntents text).foldl (runIntent env text) s0 := by
  unfold runIntents matchedIntents
  cases hg : matchesGreeting text <;> cases ht : matchesTimeQuery text <;>
    cases hz : matchesTimezoneCmd text <;> rcases hc : calendarIntent text with _ | c <;>
    simp [runIntent, List.foldl_append]

/-- The JSON object parsed from the POST body, restricted to the fields
slack_events reads. -/
structure SlackEventObj where
  type : Option String
  subtype : Option String
  text : Option String
  channel : String
deriving DecidableEq

/-- The parsed request payload: an optional challenge field and an
optional event object. -/
structure EventPayload where
  challenge : Option String
  event : Option SlackEventObj

/-- The three JSON response bodies slack_events can produce. -/
inductive HttpBody where
  | challengeEcho : String → HttpBody
  | invalidSignature : HttpBody
  | okAck : HttpBody
deriving DecidableEq

/-- What one call of the slack_events view produces: HTTP status and
body, the texts posted to the channel, the TIMEZONE global after the
request, and whether the outer except block caught an exception. -/
structure HandlerResult where
  status : Nat
  body : HttpBody
  posts : List String
  postCalls : Nat
  finalTz : String
  aborted : Bool
deriving DecidableEq

/-- data.get("event", Ø): a missing event field behaves as an empty
dict, whose gets are all None and whose channel access would fail
before any branch taken here reads it. -/
def defaultEventObj : SlackEventObj :=
  ⟨none, none, none, ""⟩

/-- main.py lines 107 to 213, slack_events: challenge echo before the
signature gate, then the gate, then the bot-message guard, then the
app_mention intent block with its surrounding try/except, and the final
ok acknowledgment returned in every non-challenge, verified case. -/
def slack_events (env : BotEnv) (hmacSha256Hex : String → String → String)
    (secret : String) (now : Int) (req : SlackRequest) (data : EventPayload)
    (tz0 : String) : HandlerResult :=
  match data.challenge with
  | some c => ⟨200, .challengeEcho c, [], 0, tz0, false⟩
  | none =>
    if !(verify_slack_request hmacSha256Hex secret now req) then
      ⟨403, .invalidSignature, [], 0, tz0, false⟩
    else
      let event := data.event.getD defaultEventObj
      if event.subtype == some "bot_message" then ⟨200, .okAck, [], 0, tz0, false⟩
      else if event.type == some "app_mention" then
        let text := pyLower (event.text.getD "")
        let s := runIntents env ⟨tz0, [], 0, false⟩ text
        ⟨200, .okAck, s.posts, s.calls, s.tIMEZONE, s.aborted⟩
      else ⟨200, .okAck, [], 0, tz0, false⟩

/-- C7. The router executes exactly the matched-intent list in order; at
most one calendar intent is matched, namely the first of nextEvent,
todayEvents, weekEvents, defaultCalendar whose guard holds, while the
greeting, time and set-timezone intents are matched exactly when their
own substring guards hold, independently of everything else. -/
theorem intent_dispatch_spec :
    (∀ env s0 text,
      runIntents env s0 text = (matchedIntents text).foldl (runIntent env text) s0) ∧
    (∀ text, (matchedIntents text).countP isCalendarIntent ≤ 1) ∧
    (∀ text, BotIntent.greeting ∈ matchedIntents text ↔ matchesGreeting text = true) ∧
    (∀ text, BotIntent.timeQuery ∈ matchedIntents text ↔ matchesTimeQuery text = true) ∧
    (∀ text, BotIntent.setTimezone ∈ matchedIntents text ↔ matchesTimezoneCmd text = true) ∧
    (∀ text c, BotIntent.calendar c ∈ matchedIntents text ↔ calendarIntent text = some c) ∧
    (∀ text, calendarIntent text = some CalendarIntent.nextEvent ↔
      pyIn "next event" text = true) ∧
    (∀ text, calendarIntent text = some CalendarIntent.todayEvents ↔
      (pyIn "next event" text = false ∧
        (pyIn "today" text && (pyIn "event" text || pyIn "calendar" text)) = true)) ∧
    (∀ text, calendarIntent text = some CalendarIntent.weekEvents ↔
      (pyIn "next event" text = false ∧
        (pyIn "today" text && (pyIn "event" text || pyIn "calendar" text)) = false ∧
        (pyIn "this week" text && (pyIn "event" text || pyIn "calendar" text)) = true)) ∧
    (∀ text, calendarIntent text = some CalendarIntent.defaultCalendar ↔
      (pyIn "next event" text = false ∧
        (pyIn "today" text && (pyIn "event" text || pyIn "calendar" text)) = false ∧
        (pyIn "this week" text && (pyIn "event" text || pyIn "calendar" text)) = false ∧
        (pyIn "calendar" text && !(pyIn "next event" text)) = true)) := by
  refine ⟨runIntents_eq_foldl, ?_, ?_, ?_, ?_, ?_, ?_, ?_, ?_, ?_⟩
  · intro text
    unfold matchedIntents
    cases matchesGreeting text <;> cases matchesTimeQuery text <;>
      cases matchesTimezoneCmd text <;> rcases calendarIntent text with _ | c <;>
      simp [List.countP_append, List.countP_cons, isCalendarIntent]
  · intro text
    unfold matchedIntents
    cases matchesGreeting text <;> cases matchesTimeQuery text <;>
      cases matchesTimezoneCmd text <;> rcases calendarIntent text with _ | c <;> simp
  · intro text
    unfold matchedIntents
    cases matchesGreeting text <;> cases matchesTimeQuery text <;>
      cases matchesTimezoneCmd text <;> rcases calendarIntent text with _ | c <;> simp
  · intro text
    unfold matchedIntents
    cases matchesGreeting text <;> cases matchesTimeQuery text <;>
      cases matchesTimezoneCmd text <;> rcases calendarIntent text with _ | c <;> simp
  · intro text c
    unfold matchedIntents
    cases matchesGreeting text <;> cases matchesTimeQuery text <;>
      cases matchesTimezoneCmd text <;> rcases hc : calendarIntent text with _ | c2 <;>
      simp [hc, eq_comm]
  · intro text
    unfold calendarIntent
    cases h1 : pyIn "next event" text <;>
      cases h2 : pyIn "today" text && (pyIn "event" text || pyIn "calendar" text) <;>
      cases h3 : pyIn "this week" text && (pyIn "event" text || pyIn "calendar" text) <;>
      cases h4 : pyIn "calendar" text <;> simp [h1, h2, h3, h4]
  · intro text
    unfold calendarIntent
    cases h1 : pyIn "next event" text <;>
      cases h2 : pyIn "today" text && (pyIn "event" text || pyIn "calendar" text) <;>
      cases h3 : pyIn "this week" text && (pyIn "event" text || pyIn "calendar" text) <;>
      cases h4 : pyIn "calendar" text <;> simp [h1, h2, h3, h4]
  · intro text
    unfold calendarIntent
    cases h1 : pyIn "next event" text <;>
      cases h2 : pyIn "today" text && (pyIn "event" text || pyIn "calendar" text) <;>
      cases h3 : pyIn "this week" text && (pyIn "event" text || pyIn "calendar" text) <;>
      cases h4 : pyIn "calendar" text <;> simp [h1, h2, h3, h4]
  · intro text
    unfold calendarIntent
    cases h1 : pyIn "next event" text <;>
      cases h2 : pyIn "today" text && (pyIn "event" text || pyIn "calendar" text) <;>
      cases h3 : pyIn "this week" text && (pyIn "event" text || pyIn "calendar" text) <;>
      cases h4 : pyIn "calendar" text <;> simp [h1, h2, h3, h4]

/-- C2. A non-challenge POST whose signature verification fails gets the
403 invalid-signature response, with no intent executed and no outbound
chat post attempted, and the TIMEZONE global untouched. -/
theorem invalid_signature_rejected (env : BotEnv) (hm : String → String → String)
    (secret : String) (now : Int) (req : SlackRequest) (data : EventPayload)
    (tz0 : String) (hch : data.challenge = none)
    (hv : verify_slack_request hm secret now req = false) :
    slack_events env hm secret now req data tz0 =
      ⟨403, HttpBody.invalidSignature, [], 0, tz0, false⟩ := by
  unfold slack_events
  rw [hch]
  simp [hv]

/-- A concrete environment for closed instances: every zone valid, empty
renderings, calendar unavailable, no chat post ever raising. -/
def sampleEnv : BotEnv :=
  ⟨fun _ => true, fun _ => "", fun _ => none, fun _ => "", fun _ => "", fun _ => "",
    fun _ => false⟩

/-- Witness for C2: a request with no signature headers is rejected. -/
theorem invalid_signature_rejected_witness :
    slack_events sampleEnv (fun _ m => m) "k" 0 ⟨none, none, ""⟩ ⟨none, none⟩
        "America/Chicago" =
      ⟨403, HttpBody.invalidSignature, [], 0, "America/Chicago", false⟩ :=
  invalid_signature_rejected sampleEnv (fun _ m => m) "k" 0 ⟨none, none, ""⟩ ⟨none, none⟩
    "America/Chicago" rfl (by decide)

/-- An environment whose first chat post raises (and later ones would
succeed), with every zone valid and the calendar unavailable. -/
def failingPostEnv : BotEnv :=
  ⟨fun _ => true, fun _ => "12:00", fun _ => none, fun _ => "", fun _ => "", fun _ => "",
    fun n => n == 0⟩

/-- Counterexample to C3 as stated: for the verified app_mention
"hi time" with a greeting post that raises, the handler still answers
200 ok and the exception is caught (aborted is recorded), but the time
intent, which also matches this text, never executes: nothing at all is
posted (posts is empty and only one post call was attempted), so an
exception in one intent does prevent the remaining matching intents of
the same message from executing. -/
theorem intent_isolation_counterexample :
    matchesTimeQuery (pyLower "hi time") = true ∧
    matchesGreeting (pyLower "hi time") = true ∧
    slack_events failingPostEnv (fun _ _ => "m") "k" 0 ⟨some "0", some "v0=m", "b"⟩
        ⟨none, some ⟨some "app_mention", none, some "hi time", "C"⟩⟩ "America/Chicago" =
      ⟨200, HttpBody.okAck, [], 1, "America/Chicago", true⟩ := by
  decide

/-- C3 amended. Any exception raised while executing an intent of a
verified app_mention is caught by the single try/except wrapping the
whole intent block, and the handler still returns the 200 ok
acknowledgment; however the exception aborts the remaining matching
intents of the same message: once an exception has escaped, no further
intent runs. -/
theorem slack_events_ack_spec :
    (∀ env hm secret now req data tz0, data.challenge = none →
      verify_slack_request hm secret now req = true →
      (slack_events env hm secret now req data tz0).status = 200 ∧
      (slack_events env hm secret now req data tz0).body = HttpBody.okAck) ∧
    (∀ env s text, s.aborted = true → runIntents env s text = s) := by
  constructor
  · intro env hm secret now req data tz0 hch hv
    unfold slack_events
    rw [hch]
    simp only [hv, Bool.not_true, Bool.false_eq_true, if_false]
    split_ifs <;> exact ⟨rfl, rfl⟩
  · intro env s text hab
    unfold runIntents
    rcases hc : calendarIntent text with _ | c <;> simp [ifLive, hab, hc]

/-- Witness for C3 amended: a verified greeting mention is acknowledged
with 200 ok. -/
theorem slack_events_ack_spec_witness :
    (slack_events sampleEnv (fun _ _ => "m") "k" 0 ⟨some "0", some "v0=m", "b"⟩
        ⟨none, some ⟨some "app_mention", none, some "hello", "C"⟩⟩
        "America/Chicago").status = 200 ∧
    (slack_events sampleEnv (fun _ _ => "m") "k" 0 ⟨some "0", some "v0=m", "b"⟩
        ⟨none, some ⟨some "app_mention", none, some "hello", "C"⟩⟩
        "America/Chicago").body = HttpBody.okAck :=
  slack_events_ack_spec.1 sampleEnv (fun _ _ => "m") "k" 0 ⟨some "0", some "v0=m", "b"⟩
    ⟨none, some ⟨some "app_mention", none, some "hello", "C"⟩⟩ "America/Chicago"
    rfl (by decide)

theorem chatPostMessage_tz (env : BotEnv) (s : BotState) (m : String) :
    (chatPostMessage env s m).tIMEZONE = s.tIMEZONE := by
  unfold chatPostMessage
  split <;> rfl

theorem chatPostMessage_posts_mono (env : BotEnv) (s : BotState) (m x : String)
    (h : x ∈ s.posts) : x ∈ (chatPostMessage env s m).posts := by
  unfold chatPostMessage
  split
  · exact h
  · exact List.mem_append_left _ h

theorem chatPostMessage_noFail_eq (env : BotEnv) (s : BotState) (m : String)
    (h : env.postFails s.calls = false) :
    chatPostMessage env s m = ⟨s.tIMEZONE, s.posts ++ [m], s.calls + 1, s.aborted⟩ := by
  unfold chatPostMessage
  rw [h]
  rfl

theorem runCalendarIntent_tz (env : BotEnv) (s : BotState) (c : CalendarIntent) :
    (runCalendarIntent env s c).tIMEZONE = s.tIMEZONE := by
  cases c <;> simp only [runCalendarIntent]
  · rcases env.calendar 30 with _ | (_ | ⟨e, evs⟩) <;> apply chatPostMessage_tz
  · rcases env.calendar 1 with _ | (_ | ⟨e, evs⟩) <;> apply chatPostMessage_tz
  · rcases env.calendar 7 with _ | (_ | ⟨e, evs⟩) <;> apply chatPostMessage_tz
  · rcases env.calendar 7 with _ | (_ | ⟨e, evs⟩) <;> apply chatPostMessage_tz

theorem runCalendarIntent_posts_mono (env : BotEnv) (s : BotState) (c : CalendarIntent)
    (x : String) (h : x ∈ s.posts) : x ∈ (runCalendarIntent env s c).posts := by
  cases c <;> simp only [runCalendarIntent]
  · rcases env.calendar 30 with _ | (_ | ⟨e, evs⟩) <;> exact chatPostMessage_posts_mono _ _ _ _ h
  · rcases env.calendar 1 with _ | (_ | ⟨e, evs⟩) <;> exact chatPostMessage_posts_mono _ _ _ _ h
  · rcases env.calendar 7 with _ | (_ | ⟨e, evs⟩) <;> exact chatPostMessage_posts_mono _ _ _ _ h
  · rcases env.calendar 7 with _ | (_ | ⟨e, evs⟩) <;> exact chatPostMessage_posts_mono _ _ _ _ h

theorem runIntent_tz (env : BotEnv) (text : String) (s : BotState) (i : BotIntent) :
    (runIntent env text s i).tIMEZONE = s.tIMEZONE ∨
      ((runIntent env text s i).tIMEZONE = extract_tz text ∧
        env.validTz (extract_tz text) = true) := by
  cases i <;> simp only [runIntent, ifLive]
  · split
    · exact Or.inl rfl
    · exact Or.inl (chatPostMessage_tz _ _ _)
  · split
    · exact Or.inl rfl
    · split <;> exact Or.inl (chatPostMessage_tz _ _ _)
  · split
    · exact Or.inl rfl
    · split
      · rename_i hval
        refine Or.inr ⟨?_, hval⟩
        exact chatPostMessage_tz _ _ _
      · exact Or.inl (chatPostMessage_tz _ _ _)
  · split
    · exact Or.inl rfl
    · exact Or.inl (runCalendarIntent_tz _ _ _)

theorem runIntent_posts_mono (env : BotEnv) (text : String) (s : BotState) (i : BotIntent)
    (x : String) (h : x ∈ s.posts) : x ∈ (runIntent env text s i).posts := by
  cases i <;> simp only [runIntent, ifLive]
  · split
    · exact h
    · exact chatPostMessage_posts_mono _ _ _ _ h
  · split
    · exact h
    · split <;> exact chatPostMessage_posts_mono _ _ _ _ h
  · split
    · exact h
    · split <;> exact chatPostMessage_posts_mono _ _ _ _ h
  · split
    · exact h
    · exact runCalendarIntent_posts_mono _ _ _ _ h

theorem foldl_runIntent_tz (env : BotEnv) (text : String) (l : List BotIntent) :
    ∀ s : BotState,
      (l.foldl (runIntent env text) s).tIMEZONE = s.tIMEZONE ∨
        ((l.foldl (runIntent env text) s).tIMEZONE = extract_tz text ∧
          env.validTz (extract_tz text) = true) := by
  induction l with
  | nil => intro s; exact Or.inl rfl
  | cons i rest ih =>
    intro s
    rw [List.foldl_cons]
    rcases ih (runIntent env text s i) with h | h
    · rcases runIntent_tz env text s i with h2 | h2
      · exact Or.inl (h.trans h2)
      · exact Or.inr ⟨h.trans h2.1, h2.2⟩
    · exact Or.inr h

theorem foldl_runIntent_posts_mono (env : BotEnv) (text : String) (l : List BotIntent) :
    ∀ (s : BotState) (x : String), x ∈ s.posts → x ∈ (l.foldl (runIntent env text) s).posts := by
  induction l with
  | nil => intro s x h; exact h
  | cons i rest ih =>
    intro s x h
    rw [List.foldl_cons]
    exact ih _ _ (runIntent_posts_mono _ _ _ _ _ h)

theorem foldl_runIntent_aborted (env : BotEnv) (text : String)
    (hnf : ∀ n, env.postFails n = false) (l : List BotIntent) :
    ∀ s : BotState, (l.foldl (runIntent env text) s).aborted = s.aborted := by
  have hpost : ∀ (s : BotState) (m : String), (chatPostMessage env s m).aborted = s.aborted := by
    intro s m
    rw [chatPostMessage_noFail_eq env s m (hnf s.calls)]
  have hcal : ∀ (s : BotState) (c : CalendarIntent),
      (runCalendarIntent env s c).aborted = s.aborted := by
    intro s c
    cases c <;> simp only [runCalendarIntent]
    · rcases env.calendar 30 with _ | (_ | ⟨e, evs⟩) <;> apply hpost
    · rcases env.calendar 1 with _ | (_ | ⟨e, evs⟩) <;> apply hpost
    · rcases env.calendar 7 with _ | (_ | ⟨e, evs⟩) <;> apply hpost
    · rcases env.calendar 7 with _ | (_ | ⟨e, evs⟩) <;> apply hpost
  have hint : ∀ (s : BotState) (i : BotIntent), (runIntent env text s i).aborted = s.aborted := by
    intro s i
    cases i <;> simp only [runIntent, ifLive]
    · split
      · rfl
      · apply hpost
    · split
      · rfl
      · split <;> apply hpost
    · split
      · rfl
      · split <;> apply hpost
    · split
      · rfl
      · apply hcal
  induction l with
  | nil => intro s; rfl
  | cons i rest ih =>
    intro s
    rw [List.foldl_cons, ih, hint]

/-- C4. The set-timezone command works on the whitespace-trimmed suffix
after the last "timezone": when the environment accepts it as a zone,
TIMEZONE is set to it and the confirmation is posted; when it is
rejected, TIMEZONE is left unchanged and the validation error naming the
offending value is posted; and across any run, and any sequence of
mentions, TIMEZONE is either untouched or holds a value that validated
when it was set, so a valid initial zone stays valid forever. -/
theorem set_timezone_spec :
    (∀ env s0 text,
      (runIntents env s0 text).tIMEZONE = s0.tIMEZONE ∨
        ((runIntents env s0 text).tIMEZONE = extract_tz text ∧
          env.validTz (extract_tz text) = true)) ∧
    (∀ env s0 text, env.validTz (extract_tz text) = false →
      (runIntents env s0 text).tIMEZONE = s0.tIMEZONE) ∧
    (∀ env s0 text, (∀ n, env.postFails n = false) → matchesTimezoneCmd text = true →
      s0.aborted = false → env.validTz (extract_tz text) = true →
      (runIntents env s0 text).tIMEZONE = extract_tz text ∧
      ("Timezone updated to: " ++ extract_tz text) ∈ (runIntents env s0 text).posts) ∧
    (∀ env s0 text, (∀ n, env.postFails n = false) → matchesTimezoneCmd text = true →
      s0.aborted = false → env.validTz (extract_tz text) = false →
      (runIntents env s0 text).tIMEZONE = s0.tIMEZONE ∧
      ("Error: \x27" ++ extract_tz text ++
          "\x27 is not a valid timezone. Use format like \x27America/New_York\x27, \x27China/Shanghai\x27")
        ∈ (runIntents env s0 text).posts) ∧
    (∀ (env : BotEnv) (tz0 : String) (texts : List String), env.validTz tz0 = true →
      env.validTz (texts.foldl
        (fun tz t => (runIntents env ⟨tz, [], 0, false⟩ t).tIMEZONE) tz0) = true) := by
  have htz : ∀ env s0 text,
      (runIntents env s0 text).tIMEZONE = s0.tIMEZONE ∨
        ((runIntents env s0 text).tIMEZONE = extract_tz text ∧
          env.validTz (extract_tz text) = true) := by
    intro env s0 text
    rw [runIntents_eq_foldl]
    exact foldl_runIntent_tz env text _ s0
  have hinvalid : ∀ env s0 text, env.validTz (extract_tz text) = false →
      (runIntents env s0 text).tIMEZONE = s0.tIMEZONE := by
    intro env s0 text hval
    rcases htz env s0 text with h | h
    · exact h
    · rw [hval] at h
      exact absurd h.2 (by simp)
  have hkey : ∀ env s0 text, (∀ n, env.postFails n = false) → matchesTimezoneCmd text = true →
      s0.aborted = false →
      ∃ sAB : BotState, sAB.aborted = false ∧
        runIntents env s0 text =
          (match calendarIntent text with
            | some c => [BotIntent.calendar c]
            | none => ([] : List BotIntent)).foldl (runIntent env text)
            (runIntent env text sAB BotIntent.setTimezone) := by
    intro env s0 text hnf hm hab
    refine ⟨(if matchesTimeQuery text then [BotIntent.timeQuery] else []).foldl
        (runIntent env text)
        ((if matchesGreeting text then [BotIntent.greeting] else []).foldl
          (runIntent env text) s0), ?_, ?_⟩
    · rw [foldl_runIntent_aborted env text hnf, foldl_runIntent_aborted env text hnf, hab]
    · rw [runIntents_eq_foldl]
      unfold matchedIntents
      rw [List.foldl_append, List.foldl_append, List.foldl_append]
      simp only [hm, eq_self_iff_true, if_true, List.foldl_cons, List.foldl_nil]
  have hstep : ∀ env (sAB : BotState) text, (∀ n, env.postFails n = false) →
      sAB.aborted = false → env.validTz (extract_tz text) = true →
      runIntent env text sAB BotIntent.setTimezone =
        ⟨extract_tz text, sAB.posts ++ ["Timezone updated to: " ++ extract_tz text],
          sAB.calls + 1, false⟩ := by
    intro env sAB text hnf hab hval
    simp only [runIntent, ifLive, hab, Bool.false_eq_true, if_false, hval, if_true]
    rw [chatPostMessage_noFail_eq env _ _ (hnf _)]
    try simp [hab]
  have hstepErr : ∀ env (sAB : BotState) text, (∀ n, env.postFails n = false) →
      sAB.aborted = false → env.validTz (extract_tz text) = false →
      runIntent env text sAB BotIntent.setTimezone =
        ⟨sAB.tIMEZONE, sAB.posts ++
            ["Error: \x27" ++ extract_tz text ++
              "\x27 is not a valid timezone. Use format like \x27America/New_York\x27, \x27China/Shanghai\x27"],
          sAB.calls + 1, false⟩ := by
    intro env sAB text hnf hab hval
    simp only [runIntent, ifLive, hab, Bool.false_eq_true, if_false, hval]
    rw [chatPostMessage_noFail_eq env _ _ (hnf _)]
    try simp [hab]
  have hmem : ∀ env s0 text, (∀ n, env.postFails n = false) → matchesTimezoneCmd text = true →
      s0.aborted = false →
      ∀ msg : String,
        (∀ sAB : BotState, sAB.aborted = false →
          (runIntent env text sAB BotIntent.setTimezone).posts = sAB.posts ++ [msg]) →
        msg ∈ (runIntents env s0 text).posts := by
    intro env s0 text hnf hm hab msg hrun
    obtain ⟨sAB, habAB, heq⟩ := hkey env s0 text hnf hm hab
    rw [heq]
    rcases calendarIntent text with _ | c
    · simp only [List.foldl_nil]
      rw [hrun sAB habAB]
      simp
    · simp only [List.foldl_cons, List.foldl_nil]
      exact runIntent_posts_mono _ _ _ _ _ (by rw [hrun sAB habAB]; simp)
  refine ⟨htz, hinvalid, ?_, ?_, ?_⟩
  · intro env s0 text hnf hm hab hval
    constructor
    · obtain ⟨sAB, habAB, heq⟩ := hkey env s0 text hnf hm hab
      rw [heq]
      rcases calendarIntent text with _ | c
      · simp only [List.foldl_nil]
        rw [hstep env sAB text hnf habAB hval]
      · simp only [List.foldl_cons, List.foldl_nil]
        rcases runIntent_tz env text (runIntent env text sAB BotIntent.setTimezone)
            (BotIntent.calendar c) with h | h
        · rw [h, hstep env sAB text hnf habAB hval]
        · exact h.1
    · exact hmem env s0 text hnf hm hab _
        (fun sAB habAB => by rw [hstep env sAB text hnf habAB hval])
  · intro env s0 text hnf hm hab hval
    refine ⟨hinvalid env s0 text hval, ?_⟩
    exact hmem env s0 text hnf hm hab _
      (fun sAB habAB => by rw [hstepErr env sAB text hnf habAB hval])
  · intro env tz0 texts
    induction texts generalizing tz0 with
    | nil => intro hvalid; exact hvalid
    | cons t rest ih =>
      intro hvalid
      rw [List.foldl_cons]
      apply ih
      rcases htz env ⟨tz0, [], 0, false⟩ t with h2 | h2
      · rw [h2]; exact hvalid
      · rw [h2.1]; exact h2.2

/-- A concrete environment accepting exactly one zone name, with no chat
post ever raising. -/
def tzTestEnv : BotEnv :=
  ⟨fun z => z == "america/new_york", fun _ => "", fun _ => none, fun _ => "", fun _ => "",
    fun _ => "", fun _ => false⟩

/-- Witness for C4: the mention "set timezone america/new_york" updates
TIMEZONE to the trimmed suffix and posts the confirmation. -/
theorem set_timezone_spec_witness :
    (runIntents tzTestEnv ⟨"America/Chicago", [], 0, false⟩
        "set timezone america/new_york").tIMEZONE =
      extract_tz "set timezone america/new_york" ∧
    ("Timezone updated to: " ++ extract_tz "set timezone america/new_york") ∈
      (runIntents tzTestEnv ⟨"America/Chicago", [], 0, false⟩
        "set timezone america/new_york").posts :=
  set_timezone_spec.2.2.1 tzTestEnv ⟨"America/Chicago", [], 0, false⟩
    "set timezone america/new_york" (fun _ => rfl) (by decide) rfl (by decide)

/-- The module-level names main.py binds at import time. -/
structure StartupState where
  SLACK_SIGNING_SECRET : String
  SLACK_BOT_TOKEN : String
  clientInitialized : Bool
  processStarted : Bool

/-- main.py lines 17 to 26, the module-level startup: os.environ.get with
empty-string defaults for both variables, and the WebClient construction
wrapped in try/except with client set to None when it raises
(clientInitRaises). No statement on this path can terminate the process,
so startup always completes. -/
def moduleStartup (environ : String → Option String) (clientInitRaises : Bool) :
    StartupState :=
  { SLACK_SIGNING_SECRET := (environ "SLACK_SIGNING_SECRET").getD ""
    SLACK_BOT_TOKEN := (environ "SLACK_BOT_TOKEN").getD ""
    clientInitialized := !clientInitRaises
    processStarted := true }

/-- Counterexample to C9 as stated: with both environment variables
absent, the process still starts, with both values defaulted to the
empty string, rather than failing fast. -/
theorem startup_missing_env_counterexample :
    (moduleStartup (fun _ => none) false).processStarted = true ∧
    (moduleStartup (fun _ => none) false).SLACK_SIGNING_SECRET = "" ∧
    (moduleStartup (fun _ => none) false).SLACK_BOT_TOKEN = "" :=
  ⟨rfl, rfl, rfl⟩

/-- C9 amended. Startup never fails fast: whatever the environment, the
module loads and the process starts, an absent signing secret merely
defaults to the empty string, and with an empty signing secret every
signature verification returns false, so such an instance runs but can
never accept a request. -/
theorem startup_no_fail_fast :
    (∀ (environ : String → Option String) (b : Bool),
      (moduleStartup environ b).processStarted = true) ∧
    (∀ (environ : String → Option String) (b : Bool),
      environ "SLACK_SIGNING_SECRET" = none →
      (moduleStartup environ b).SLACK_SIGNING_SECRET = "") ∧
    (∀ (hm : String → String → String) (now : Int) (req : SlackRequest),
      verify_slack_request hm "" now req = false) := by
  refine ⟨fun env b => rfl, ?_, ?_⟩
  · intro environ b h
    unfold moduleStartup
    rw [h]
    rfl
  · intro hm now req
    rcases req with ⟨ts, sig, body⟩
    unfold verify_slack_request
    dsimp only
    split
    · rfl
    · split
      · rfl
      · split
        · rfl
        · simp

/-- Witness for C9 amended: with no environment variables and a raising
client constructor, the secret defaults to empty, and verification with
an empty secret rejects even an otherwise well-formed request. -/
theorem startup_no_fail_fast_witness :
    (moduleStartup (fun _ => none) true).SLACK_SIGNING_SECRET = "" ∧
    verify_slack_request (fun _ m => m) "" 0 ⟨some "0", some "v0=v0:0:x", "x"⟩ = false :=
  ⟨startup_no_fail_fast.2.1 (fun _ => none) true rfl,
    startup_no_fail_fast.2.2 (fun _ m => m) 0 ⟨some "0", some "v0=v0:0:x", "x"⟩⟩
